import Mathlib

/-!
Verification development for the resource-authorization guards of the
repository: `AuthorizationGuard` (src/authorization.guard.ts) and
`EnvironmentAndAuthorizationValidatorV1Guard` (src/unnamed/part_000).

The guards are shallowly embedded as pure Lean functions.  Exceptions are
an explicit error type; every TypeScript `try { body } catch (e) { this.handleError(e) }`
becomes a wrapper mapping the error of the embedded `body`.  Asynchronous
service calls are oracle functions supplied in a `Collaborators` record;
every call additionally records a `LookupEvent` so that temporal claims
("no lookup is issued before ...") can be stated as facts about the
emitted event list.  Two calls in the source are made WITHOUT `await`
(`validateEnvironmentId` in part_000 line 102, `validateSalesforceType`
in authorization.guard.ts line 225): an async function invoked without
`await` still starts running (so its lookups are issued) but a rejection
of the returned promise never reaches the callers try/catch; this is
embedded by keeping the events of such a call and discarding its outcome.
-/

/-- Soft-delete visibility filter (enum DeletedStatus: NOT_DELETED,
WITH_DELETED, ONLY_DELETED).  The caller-supplied `deleted-status` query
value is assigned to a DeletedStatus-typed field without validation in the
source, so a free-form pass-through constructor is included. -/
inductive DeletedStatus where
  | notDeleted
  | withDeleted
  | onlyDeleted
  | raw (value : String)
deriving DecidableEq, Repr

/-- enum FetchDeletedRecordsAccessLevel: the hierarchy tier at which an
operation declares its soft-delete visibility. -/
inductive FetchDeletedRecordsAccessLevel where
  | organization
  | project
  | environment
deriving DecidableEq, Repr

/-- enum OrganizationType: only SALESFORCE_ONLY is referenced by the guards;
every other member is collapsed into `normal`. -/
inductive OrganizationType where
  | salesforceOnly
  | normal
deriving DecidableEq, Repr

/-- enum ProjectType: only SALESFORCE_ONLY is referenced by the guards. -/
inductive ProjectType where
  | salesforceOnly
  | normal
deriving DecidableEq, Repr

/-- enum OrganizationUserRoles.  The guards reference only OWNER directly;
the remaining members follow the role table of the data model
(Owner > Manager > Member). -/
inductive OrganizationUserRoles where
  | owner
  | manager
  | member
deriving DecidableEq, Repr

/-- enum ProjectUserRoles.  MANAGER and MEMBER are referenced by the guards;
`viewer` stands for any further member of the enum (any role other than
MANAGER / MEMBER fails the project-role check). -/
inductive ProjectUserRoles where
  | manager
  | member
  | viewer
deriving DecidableEq, Repr

/-- enum GuardValidationExceptionTypes: only UNAUTHORIZED_EXCEPTION is
referenced by the guards. -/
inductive GuardValidationExceptionTypes where
  | unauthorizedException
deriving DecidableEq, Repr

/-- The exceptions thrown by the guards.
`guardValidationFailedException none` is `new GuardValidationFailedException()`
(no subtype argument); `typeError` models the TypeError raised by JavaScript
when a property such as `.toString()` or `.getRole()` is read from
`undefined`.  The class GuardValidationFailedException itself lives outside
src/; it is modelled from the spec as a distinct exception class (in
particular it is not an instance of UnauthorizedException, so a wrapped
error re-entering a classifier is not in the unauthorized class). -/
inductive Exc where
  | badRequestException (message : String)
  | unauthorizedException (message : Option String)
  | guardValidationFailedException (subtype : Option GuardValidationExceptionTypes)
  | typeError
deriving DecidableEq, Repr

/-- OrganizationDTO as seen by the guards: only getType() is read. -/
structure OrganizationDTO where
  otype : OrganizationType
deriving DecidableEq, Repr

/-- OrganizationMemberDTO as seen by the guards: getRole() and
getOrganization() are read (expandOrganization=true is set on the filters). -/
structure OrganizationMemberDTO where
  role : OrganizationUserRoles
  organization : OrganizationDTO
deriving DecidableEq, Repr

/-- ProjectMemberDTO as seen by the guards: only getRole() is read. -/
structure ProjectMemberDTO where
  role : ProjectUserRoles
deriving DecidableEq, Repr

/-- ProjectDTO as seen by the guards: only getType() is read. -/
structure ProjectDTO where
  ptype : ProjectType
deriving DecidableEq, Repr

/-- PaginatedData shape returned by the membership lookup services:
a data array and a totalCount. -/
structure PaginatedData (α : Type) where
  data : List α
  totalCount : Nat
deriving DecidableEq, Repr

/-- OrganizationMemberFiltersDTO as built by both guards (organizationId,
userId, expandOrganization, deletedStatus). -/
structure OrganizationMemberFiltersDTO where
  organizationId : String
  userId : String
  expandOrganization : Bool
  deletedStatus : DeletedStatus
deriving DecidableEq, Repr

/-- ProjectMemberFiltersDTO as built by getProjectMemberFilters (projectId,
userId, deletedStatus). -/
structure ProjectMemberFiltersDTO where
  projectId : String
  userId : String
  deletedStatus : DeletedStatus
deriving DecidableEq, Repr

/-- The external collaborators of the guards, as oracles.  `uuidValidate`
is the `validate` function of the uuid library (out of repository);
the four services may themselves fail, hence Except results. -/
structure Collaborators where
  uuidValidate : String → Bool
  findAllOrganizationMembers :
    OrganizationMemberFiltersDTO → Except Exc (PaginatedData OrganizationMemberDTO)
  findAllProjectMembers :
    ProjectMemberFiltersDTO → Except Exc (PaginatedData ProjectMemberDTO)
  findProjectById : String → Except Exc ProjectDTO
  findEnvironmentId : String → String → String → Except Exc (Option String)

/-- One collaborator call, recorded in the order the calls are issued. -/
inductive LookupEvent where
  | findAllOrganizationMembers (filters : OrganizationMemberFiltersDTO)
  | findAllProjectMembers (filters : ProjectMemberFiltersDTO)
  | findProjectById (projectId : String)
  | findEnvironmentId (environmentId : String) (projectId : String) (organizationId : String)
deriving DecidableEq, Repr

/-- Result of a guard computation: the outcome (value or exception) together
with the list of collaborator calls it issued. -/
abbrev GRes (α : Type) : Type := Except Exc α × List LookupEvent

/-- Return a value, issuing no lookup. -/
def gpure {α : Type} (a : α) : GRes α := (Except.ok a, [])

/-- Throw an exception, issuing no lookup. -/
def gthrow {α : Type} (e : Exc) : GRes α := (Except.error e, [])

/-- Sequencing: run `x`; on success continue with `f`, accumulating the
issued lookups; a thrown exception short-circuits. -/
def gbind {α β : Type} (x : GRes α) (f : α → GRes β) : GRes β :=
  match x with
  | (Except.ok a, t) =>
    match f a with
    | (r, t2) => (r, t ++ t2)
  | (Except.error e, t) => (Except.error e, t)

/-- Embedding of `try { x } catch (error) { this.handleError(error) }` where
handleError rethrows `h error`: successes pass, exceptions are mapped by `h`. -/
def gwrap {α : Type} (h : Exc → Exc) (x : GRes α) : GRes α :=
  match x with
  | (Except.ok a, t) => (Except.ok a, t)
  | (Except.error e, t) => (Except.error (h e), t)

/-- An async call made WITHOUT `await`: the call runs (its lookups are
issued) but neither its value nor its rejection reaches the caller. -/
def gdiscard {α : Type} (x : GRes α) : GRes Unit :=
  (Except.ok Unit.unit, x.2)

/-- JavaScript truthiness of a possibly-undefined string header:
undefined and the empty string are falsy. -/
def jsTruthy : Option String → Bool
  | none => false
  | some s => s != ""

/-- Reading a header value with `.toString()`: a TypeError is raised when
the value is undefined. -/
def jsToString {β : Type} (v : Option String) (k : String → GRes β) : GRes β :=
  match v with
  | none => gthrow Exc.typeError
  | some s => k s

/-- The deleted-status resolution pattern shared by all three tiers
(part_000 lines 177/196-204, 220/228-236, 370/374-380 and
authorization.guard.ts lines 149/156-164, 304/308-314): the status starts
as NOT_DELETED; when the declared level equals the given tier, a truthy
fetchDeletedRecords flag yields `elevated`, otherwise a defined
caller-supplied filter value is passed through verbatim. -/
def resolveDeletedStatus (tier : FetchDeletedRecordsAccessLevel)
    (elevated : DeletedStatus)
    (fetchDeletedRecordsLevel : Option FetchDeletedRecordsAccessLevel)
    (fetchDeletedRecords : Bool)
    (deletedStatusFromFilter : Option DeletedStatus) : DeletedStatus :=
  if fetchDeletedRecordsLevel = some tier then
    if fetchDeletedRecords then elevated
    else
      match deletedStatusFromFilter with
      | some v => v
      | none => DeletedStatus.notDeleted
  else DeletedStatus.notDeleted

/-- Organization tier: a truthy fetch-deleted flag elevates to WITH_DELETED
(part_000 lines 228-236; authorization.guard.ts lines 156-164). -/
def resolveOrgDeletedStatus :
    Option FetchDeletedRecordsAccessLevel → Bool → Option DeletedStatus → DeletedStatus :=
  resolveDeletedStatus FetchDeletedRecordsAccessLevel.organization DeletedStatus.withDeleted

/-- Environment tier: a truthy fetch-deleted flag elevates to WITH_DELETED
(part_000 lines 196-204). -/
def resolveEnvDeletedStatus :
    Option FetchDeletedRecordsAccessLevel → Bool → Option DeletedStatus → DeletedStatus :=
  resolveDeletedStatus FetchDeletedRecordsAccessLevel.environment DeletedStatus.withDeleted

/-- Project tier: a truthy fetch-deleted flag elevates to ONLY_DELETED
(part_000 lines 374-380; authorization.guard.ts lines 308-314). -/
def resolveProjectDeletedStatus :
    Option FetchDeletedRecordsAccessLevel → Bool → Option DeletedStatus → DeletedStatus :=
  resolveDeletedStatus FetchDeletedRecordsAccessLevel.project DeletedStatus.onlyDeleted

/-- The organization-member filters both guards build before the
organization-membership lookup (part_000 lines 220-238;
authorization.guard.ts lines 149-166). -/
def buildOrgMemberFilters (organizationId userId : String)
    (deletedStatus : DeletedStatus) : OrganizationMemberFiltersDTO :=
  { organizationId := organizationId
    userId := userId
    expandOrganization := true
    deletedStatus := deletedStatus }

/-- getProjectMemberFilters, identical in both guards (part_000 lines
363-383; authorization.guard.ts lines 297-317). -/
def getProjectMemberFilters (projectId userId : String)
    (fetchDeletedRecordsLevel : Option FetchDeletedRecordsAccessLevel)
    (fetchDeletedRecords : Bool)
    (deletedStatusFromFilter : Option DeletedStatus) : ProjectMemberFiltersDTO :=
  { projectId := projectId
    userId := userId
    deletedStatus :=
      resolveProjectDeletedStatus fetchDeletedRecordsLevel fetchDeletedRecords
        deletedStatusFromFilter }

/-- Message of the BadRequestException thrown when the organization
membership count is not exactly 1, in both guards. -/
def notAPartOfOrganizationMsg (userId organizationId : String) : String :=
  "The user with (id)=(" ++ userId ++ ") is not a part of the organization (id)=(" ++
    organizationId ++ ")"

/-- Message of the UnauthorizedException thrown by the tenant-type gates. -/
def unauthorizedFeatureMsg (userId : String) : String :=
  "The user (id)=(" ++ userId ++ ") is unauthorized to view this feature"

/-- Message of the UnauthorizedException thrown when the caller has no
project membership but a project role is required. -/
def notAPartOfProjectMsg (userId projectId : String) : String :=
  "The user (id)=(" ++ userId ++ ") is not a part of the project (id)=(" ++
    projectId ++ ")"

/-- Message of the BadRequestException thrown when the project lookup fails. -/
def notAbleToFindProjectMsg (projectId : String) : String :=
  "Not able to find project (id)=(" ++ projectId ++ ")"

/-- The role list admitted by the project-role check of both guards
(authorization.guard.ts lines 244-248; part_000 lines 320-324): MANAGER
always, plus MEMBER when the declared project role is exactly MEMBER. -/
def projectUserRolesFor (projectAccessRole : ProjectUserRoles) : List ProjectUserRoles :=
  if projectAccessRole = ProjectUserRoles.member then
    [ProjectUserRoles.manager, ProjectUserRoles.member]
  else [ProjectUserRoles.manager]

/-- getProjectById, identical in both guards (part_000 lines 351-362;
authorization.guard.ts lines 285-296): a failing lookup is converted into
a BadRequestException naming the project id. -/
def getProjectByIdG (c : Collaborators) (projectId : String) : GRes ProjectDTO :=
  match c.findProjectById projectId with
  | Except.ok p => (Except.ok p, [LookupEvent.findProjectById projectId])
  | Except.error _ =>
    (Except.error (Exc.badRequestException (notAbleToFindProjectMsg projectId)),
      [LookupEvent.findProjectById projectId])

/-- A findAllOrganizationMembers call, recording its event. -/
def callFindAllOrganizationMembers (c : Collaborators)
    (filters : OrganizationMemberFiltersDTO) : GRes (PaginatedData OrganizationMemberDTO) :=
  (c.findAllOrganizationMembers filters, [LookupEvent.findAllOrganizationMembers filters])

/-- A findAllProjectMembers call, recording its event. -/
def callFindAllProjectMembers (c : Collaborators)
    (filters : ProjectMemberFiltersDTO) : GRes (PaginatedData ProjectMemberDTO) :=
  (c.findAllProjectMembers filters, [LookupEvent.findAllProjectMembers filters])

/-- A findEnvironmentId call, recording its event. -/
def callFindEnvironmentId (c : Collaborators)
    (environmentId projectId organizationId : String) : GRes (Option String) :=
  (c.findEnvironmentId environmentId projectId organizationId,
    [LookupEvent.findEnvironmentId environmentId projectId organizationId])

/-- The request fields read by the V1 guard (part_000): the three id
headers (possibly absent), the `deleted-status` query value and the
authenticated user id. -/
structure V1Request where
  organizationId : Option String
  projectId : Option String
  environmentId : Option String
  deletedStatusFromFilter : Option DeletedStatus
  userId : String
deriving Repr

/-- The per-operation metadata the V1 guard reads through the Reflector.
fetchDeletedRecords and disableFeatureForSalesforceType are only ever used
truthily, so an absent key coincides with `false`;
isProjectValidationOptional is compared with strict equality to `true`,
so it stays an Option; an absent projectAccessRole is `none` (part_000
lines 52-86, 308-311; ProjectUserRoles is modelled from the spec as a
bitmask-style enum whose members are all truthy, so the truthiness test on
projectAccessRole is `Option.isSome`). -/
structure V1Metadata where
  fetchDeletedRecords : Bool
  fetchDeletedRecordsLevel : Option FetchDeletedRecordsAccessLevel
  disableFeatureForSalesforceType : Bool
  isProjectValidationOptional : Option Bool
  projectAccessRole : Option ProjectUserRoles
deriving Repr

/-- handleError of the V1 guard (part_000 lines 384-391): an
UnauthorizedException becomes the guard failure tagged
UNAUTHORIZED_EXCEPTION, every other error becomes the guard failure with
no subtype. -/
def v1HandleErrorExc : Exc → Exc
  | Exc.unauthorizedException _ =>
    Exc.guardValidationFailedException (some GuardValidationExceptionTypes.unauthorizedException)
  | _ => Exc.guardValidationFailedException none

/-- The failing condition of validateOrganizationId
(`!organizationId || !validate(organizationId)`, part_000 line 156) and of
the environment-id check (line 173): the value is absent, empty (falsy) or
not a valid uuid. -/
def v1IdCheckFails (c : Collaborators) (id : Option String) : Bool :=
  match id with
  | none => true
  | some s => s == "" || !(c.uuidValidate s)

/-- Body of validateOrganizationId (part_000 lines 154-159). -/
def v1ValidateOrganizationIdCore (c : Collaborators)
    (organizationId : Option String) : GRes Unit :=
  if v1IdCheckFails c organizationId then
    gthrow (Exc.badRequestException ("Invalid Organization id"))
  else gpure Unit.unit

/-- validateOrganizationId (part_000 lines 154-163): the body wrapped by
the catch-all that reroutes through handleError. -/
def v1ValidateOrganizationId (c : Collaborators)
    (organizationId : Option String) : GRes Unit :=
  gwrap v1HandleErrorExc (v1ValidateOrganizationIdCore c organizationId)

/-- The project-id format check inlined in canActivate (part_000 lines
88-92): a present, truthy, non-uuid project id raises BadRequest. -/
def v1ProjectIdFormatCheck (c : Collaborators) (projectId : Option String) : GRes Unit :=
  match projectId with
  | none => gpure Unit.unit
  | some ps =>
    if ps != "" && !(c.uuidValidate ps) then
      gthrow (Exc.badRequestException ("Invalid Project id"))
    else gpure Unit.unit

/-- Body of validateEnvironmentId (part_000 lines 164-206): format check,
environment lookup, UnauthorizedException when the lookup reports no
environment; the environment-tier deleted-status is then resolved into a
filters object that is never used further (dead code, kept for fidelity). -/
def v1ValidateEnvironmentIdCore (c : Collaborators)
    (environmentId : Option String) (projectId organizationId : String)
    (fetchDeletedRecords : Bool) (deletedStatusFromFilter : Option DeletedStatus)
    (fetchDeletedRecordsLevel : Option FetchDeletedRecordsAccessLevel) : GRes Unit :=
  if v1IdCheckFails c environmentId then
    gthrow (Exc.badRequestException ("Invalid Environment id"))
  else
    gbind (callFindEnvironmentId c ((environmentId).getD ("")) projectId organizationId)
      (fun result =>
        match result with
        | some _message =>
          let _environmentFiltersDeletedStatus :=
            resolveEnvDeletedStatus fetchDeletedRecordsLevel fetchDeletedRecords
              deletedStatusFromFilter
          gpure Unit.unit
        | none => gthrow (Exc.unauthorizedException none))

/-- validateEnvironmentId (part_000 lines 164-210): body wrapped by the
catch-all rerouting through handleError. -/
def v1ValidateEnvironmentId (c : Collaborators)
    (environmentId : Option String) (projectId organizationId : String)
    (fetchDeletedRecords : Bool) (deletedStatusFromFilter : Option DeletedStatus)
    (fetchDeletedRecordsLevel : Option FetchDeletedRecordsAccessLevel) : GRes Unit :=
  gwrap v1HandleErrorExc
    (v1ValidateEnvironmentIdCore c environmentId projectId organizationId
      fetchDeletedRecords deletedStatusFromFilter fetchDeletedRecordsLevel)

/-- Body of validateOrganizationMembers of the V1 guard (part_000 lines
219-260): build the filters, look the membership up, require exactly one
record, apply the tenant-type gate, return the paginated result. -/
def v1ValidateOrganizationMembersCore (c : Collaborators)
    (organizationId userId : String) (fetchDeletedRecords : Bool)
    (deletedStatusFromFilter : Option DeletedStatus)
    (fetchDeletedRecordsLevel : Option FetchDeletedRecordsAccessLevel)
    (disableFeatureForSalesforceType : Bool) : GRes (PaginatedData OrganizationMemberDTO) :=
  gbind (callFindAllOrganizationMembers c
      (buildOrgMemberFilters organizationId userId
        (resolveOrgDeletedStatus fetchDeletedRecordsLevel fetchDeletedRecords
          deletedStatusFromFilter)))
    (fun organizationMembers =>
      if organizationMembers.totalCount = 1 then
        match organizationMembers.data with
        | [] => gthrow Exc.typeError
        | m :: _ =>
          if m.organization.otype == OrganizationType.salesforceOnly &&
              disableFeatureForSalesforceType then
            gthrow (Exc.unauthorizedException (some (unauthorizedFeatureMsg userId)))
          else gpure organizationMembers
      else
        gthrow (Exc.badRequestException (notAPartOfOrganizationMsg userId organizationId)))

/-- validateOrganizationMembers of the V1 guard (part_000 lines 211-264):
body wrapped by the catch-all rerouting through handleError. -/
def v1ValidateOrganizationMembers (c : Collaborators)
    (organizationId userId : String) (fetchDeletedRecords : Bool)
    (deletedStatusFromFilter : Option DeletedStatus)
    (fetchDeletedRecordsLevel : Option FetchDeletedRecordsAccessLevel)
    (disableFeatureForSalesforceType : Bool) : GRes (PaginatedData OrganizationMemberDTO) :=
  gwrap v1HandleErrorExc
    (v1ValidateOrganizationMembersCore c organizationId userId fetchDeletedRecords
      deletedStatusFromFilter fetchDeletedRecordsLevel disableFeatureForSalesforceType)

/-- Body of validateProject of the V1 guard (part_000 lines 274-346):
resolve the project (not-found becomes BadRequest), look the project
membership up, apply the project tenant-type gate, then the project-role
check with the organization-Owner bypass. -/
def v1ValidateProjectCore (c : Collaborators) (projectId userId : String)
    (organizationMembers : PaginatedData OrganizationMemberDTO)
    (fetchDeletedRecordsLevel : Option FetchDeletedRecordsAccessLevel)
    (deletedStatusFromFilter : Option DeletedStatus)
    (disableFeatureForSalesforceType : Bool) (fetchDeletedRecords : Bool)
    (projectAccessRole : Option ProjectUserRoles) : GRes Unit :=
  gbind (getProjectByIdG c projectId) (fun project =>
    gbind (callFindAllProjectMembers c
        (getProjectMemberFilters projectId userId fetchDeletedRecordsLevel
          fetchDeletedRecords deletedStatusFromFilter))
      (fun projectMember =>
        if projectMember.totalCount = 1 &&
            project.ptype == ProjectType.salesforceOnly &&
            disableFeatureForSalesforceType then
          gthrow (Exc.unauthorizedException (some (unauthorizedFeatureMsg userId)))
        else
          match projectAccessRole with
          | none => gpure Unit.unit
          | some par =>
            match organizationMembers.data with
            | [] => gthrow Exc.typeError
            | m :: _ =>
              if m.role ≠ OrganizationUserRoles.owner then
                if projectMember.totalCount > 0 then
                  match projectMember.data with
                  | [] => gthrow Exc.typeError
                  | pm :: _ =>
                    if pm.role ∉ projectUserRolesFor par then
                      gthrow (Exc.unauthorizedException none)
                    else gpure Unit.unit
                else
                  gthrow (Exc.unauthorizedException
                    (some (notAPartOfProjectMsg userId projectId)))
              else gpure Unit.unit))

/-- validateProject of the V1 guard (part_000 lines 265-350): body wrapped
by the catch-all rerouting through handleError. -/
def v1ValidateProject (c : Collaborators) (projectId userId : String)
    (organizationMembers : PaginatedData OrganizationMemberDTO)
    (fetchDeletedRecordsLevel : Option FetchDeletedRecordsAccessLevel)
    (deletedStatusFromFilter : Option DeletedStatus)
    (disableFeatureForSalesforceType : Bool) (fetchDeletedRecords : Bool)
    (projectAccessRole : Option ProjectUserRoles) : GRes Unit :=
  gwrap v1HandleErrorExc
    (v1ValidateProjectCore c projectId userId organizationMembers
      fetchDeletedRecordsLevel deletedStatusFromFilter disableFeatureForSalesforceType
      fetchDeletedRecords projectAccessRole)

/-- Body of canActivate of the V1 guard (part_000 lines 47-140), in source
order: validate the organization id, syntactic project-id check, the
optional-project short circuit returning allow, then — with a truthy
project id — the environment validation invoked WITHOUT await (its outcome
is discarded, part_000 line 102), the organization-membership validation
and the project validation.  A falsy project id raises the untyped guard
failure (line 112).  After validateOrganizationId has succeeded the
organization id is a defined non-empty string, so the `getD` defaults are
never reached. -/
def v1CanActivateBody (c : Collaborators) (req : V1Request) (meta : V1Metadata) : GRes Bool :=
  gbind (v1ValidateOrganizationId c req.organizationId) (fun _ =>
    gbind (v1ProjectIdFormatCheck c req.projectId) (fun _ =>
      if meta.isProjectValidationOptional = some true && !(jsTruthy req.projectId) then
        gpure true
      else
        match req.projectId with
        | none => gthrow (Exc.guardValidationFailedException none)
        | some ps =>
          if ps == "" then gthrow (Exc.guardValidationFailedException none)
          else
            gbind (gdiscard (v1ValidateEnvironmentId c req.environmentId ps
                ((req.organizationId).getD ("")) meta.fetchDeletedRecords
                req.deletedStatusFromFilter meta.fetchDeletedRecordsLevel)) (fun _ =>
              gbind (v1ValidateOrganizationMembers c ((req.organizationId).getD (""))
                  req.userId meta.fetchDeletedRecords req.deletedStatusFromFilter
                  meta.fetchDeletedRecordsLevel meta.disableFeatureForSalesforceType)
                (fun organizationMembers =>
                  gbind (v1ValidateProject c ps req.userId organizationMembers
                      meta.fetchDeletedRecordsLevel req.deletedStatusFromFilter
                      meta.disableFeatureForSalesforceType meta.fetchDeletedRecords
                      meta.projectAccessRole)
                    (fun _ => gpure true)))))

/-- canActivate of the V1 guard (part_000 lines 47-144): the body wrapped
by the outer catch rerouting through handleError. -/
def v1CanActivate (c : Collaborators) (req : V1Request) (meta : V1Metadata) : GRes Bool :=
  gwrap v1HandleErrorExc (v1CanActivateBody c req meta)

/-- The request fields read by the AuthorizationGuard
(authorization.guard.ts): the two id headers (read with `.toString()`, so
an absent header raises a TypeError), the `deleted-status` query value and
the authenticated user id. -/
structure AGRequest where
  organizationId : Option String
  projectId : Option String
  deletedStatusFromFilter : Option DeletedStatus
  userId : String
deriving Repr

/-- The per-operation metadata the AuthorizationGuard reads through the
Reflector (authorization.guard.ts lines 43-68, 199-202, 232-235).
accessRole is the MethodAccessRole bitmask; an absent key is `none`.
fetchDeletedRecords is declared as DeletedStatus in the source but only
ever used truthily, hence Bool. -/
structure AGMetadata where
  accessRole : Option Nat
  fetchDeletedRecords : Bool
  disableFeatureForSalesforceType : Bool
  fetchDeletedRecordsLevel : Option FetchDeletedRecordsAccessLevel
  projectAccessRole : Option ProjectUserRoles
deriving Repr

/-- Modelled from the spec: the AuthorizationUserRole enum (its source file
is outside src/) maps each organization role name to a bit, powers of two
in ascending privilege order, and a declared MethodAccessRole mask contains
the bit of every role it admits, the Owner bit satisfying every mask. -/
def authorizationUserRoleBit : OrganizationUserRoles → Nat
  | OrganizationUserRoles.member => 1
  | OrganizationUserRoles.manager => 2
  | OrganizationUserRoles.owner => 4

/-- The bitwise access-role test of authorization.guard.ts lines 101-106:
`AuthorizationUserRole[role] & accessRole` is truthy.  When no accessRole
is declared the bitwise AND with undefined is NaN, which is falsy, so the
test fails. -/
def satisfiesAccessRole (roleBit : Nat) : Option Nat → Bool
  | none => false
  | some mask => roleBit &&& mask != 0

/-- handleError of the AuthorizationGuard (authorization.guard.ts lines
177-182): every error, whatever its class, is re-thrown as the guard
failure tagged UNAUTHORIZED_EXCEPTION. -/
def agHandleErrorExc : Exc → Exc :=
  fun _ =>
    Exc.guardValidationFailedException (some GuardValidationExceptionTypes.unauthorizedException)

/-- validateOrganizationMembers of the AuthorizationGuard
(authorization.guard.ts lines 141-176): build the filters, issue the
lookup and return its result; the count is NOT checked here but in
canActivate.  The body is wrapped by the catch-all rerouting through
handleError. -/
def agValidateOrganizationMembers (c : Collaborators)
    (organizationId userId : String) (fetchDeletedRecords : Bool)
    (deletedStatusFromFilter : Option DeletedStatus)
    (fetchDeletedRecordsLevel : Option FetchDeletedRecordsAccessLevel) :
    GRes (PaginatedData OrganizationMemberDTO) :=
  gwrap agHandleErrorExc
    (callFindAllOrganizationMembers c
      (buildOrgMemberFilters organizationId userId
        (resolveOrgDeletedStatus fetchDeletedRecordsLevel fetchDeletedRecords
          deletedStatusFromFilter)))

/-- Body of validateSalesforceType (authorization.guard.ts lines 324-336):
exactly one project membership, a SALESFORCE_ONLY project and the tenant
gate together raise UnauthorizedException. -/
def agValidateSalesforceTypeCore (project : ProjectDTO)
    (projectMember : PaginatedData ProjectMemberDTO) (userId : String)
    (disableFeatureForSalesforceType : Bool) : GRes Unit :=
  if projectMember.totalCount = 1 &&
      project.ptype == ProjectType.salesforceOnly &&
      disableFeatureForSalesforceType then
    gthrow (Exc.unauthorizedException (some (unauthorizedFeatureMsg userId)))
  else gpure Unit.unit

/-- validateSalesforceType (authorization.guard.ts lines 318-337): body
wrapped by the catch-all rerouting through handleError. -/
def agValidateSalesforceType (project : ProjectDTO)
    (projectMember : PaginatedData ProjectMemberDTO) (userId : String)
    (disableFeatureForSalesforceType : Bool) : GRes Unit :=
  gwrap agHandleErrorExc
    (agValidateSalesforceTypeCore project projectMember userId
      disableFeatureForSalesforceType)

/-- The project-role block of the AuthorizationGuard validateProject
(authorization.guard.ts lines 239-265), returning the updated
isUnAuthorized flag: when a project role is declared and the caller is not
an organization Owner, a membership is required and its role must be in
the admitted list, clearing the flag; otherwise the flag is unchanged. -/
def agProjectRoleBlock (organizationMembers : PaginatedData OrganizationMemberDTO)
    (projectMember : PaginatedData ProjectMemberDTO)
    (projectAccessRole : Option ProjectUserRoles)
    (userId projectId : String) (isUnAuthorized : Bool) : GRes Bool :=
  match projectAccessRole with
  | none => gpure isUnAuthorized
  | some par =>
    match organizationMembers.data with
    | [] => gthrow Exc.typeError
    | m :: _ =>
      if m.role ≠ OrganizationUserRoles.owner then
        if projectMember.totalCount > 0 then
          match projectMember.data with
          | [] => gthrow Exc.typeError
          | pm :: _ =>
            if pm.role ∉ projectUserRolesFor par then
              gthrow (Exc.unauthorizedException none)
            else gpure false
        else
          gthrow (Exc.unauthorizedException (some (notAPartOfProjectMsg userId projectId)))
      else gpure isUnAuthorized

/-- Body of validateProject of the AuthorizationGuard
(authorization.guard.ts lines 192-280): re-read the organization header
with `.toString()`, resolve the project (not-found becomes BadRequest),
look the project membership up, invoke validateSalesforceType WITHOUT
await (authorization.guard.ts line 225, outcome discarded), run the
project-role block, and finally raise UnauthorizedException when the
isUnAuthorized flag is still set. -/
def agValidateProjectCore (c : Collaborators)
    (organizationIdHeader : Option String) (projectId userId : String)
    (organizationMembers : PaginatedData OrganizationMemberDTO)
    (deletedStatusFromFilter : Option DeletedStatus)
    (disableFeatureForSalesforceType : Bool) (isUnAuthorized : Bool)
    (fetchDeletedRecordsLevel : Option FetchDeletedRecordsAccessLevel)
    (fetchDeletedRecords : Bool)
    (projectAccessRole : Option ProjectUserRoles) : GRes Unit :=
  jsToString organizationIdHeader (fun _organizationId =>
    gbind (getProjectByIdG c projectId) (fun project =>
      gbind (callFindAllProjectMembers c
          (getProjectMemberFilters projectId userId fetchDeletedRecordsLevel
            fetchDeletedRecords deletedStatusFromFilter))
        (fun projectMember =>
          gbind (gdiscard (agValidateSalesforceType project projectMember userId
              disableFeatureForSalesforceType)) (fun _ =>
            gbind (agProjectRoleBlock organizationMembers projectMember
                projectAccessRole userId projectId isUnAuthorized)
              (fun isUnAuthorizedAfter =>
                if isUnAuthorizedAfter then gthrow (Exc.unauthorizedException none)
                else gpure Unit.unit)))))

/-- validateProject of the AuthorizationGuard (authorization.guard.ts
lines 183-284): body wrapped by the catch-all rerouting through
handleError. -/
def agValidateProject (c : Collaborators)
    (organizationIdHeader : Option String) (projectId userId : String)
    (organizationMembers : PaginatedData OrganizationMemberDTO)
    (deletedStatusFromFilter : Option DeletedStatus)
    (disableFeatureForSalesforceType : Bool) (isUnAuthorized : Bool)
    (fetchDeletedRecordsLevel : Option FetchDeletedRecordsAccessLevel)
    (fetchDeletedRecords : Bool)
    (projectAccessRole : Option ProjectUserRoles) : GRes Unit :=
  gwrap agHandleErrorExc
    (agValidateProjectCore c organizationIdHeader projectId userId organizationMembers
      deletedStatusFromFilter disableFeatureForSalesforceType isUnAuthorized
      fetchDeletedRecordsLevel fetchDeletedRecords projectAccessRole)

/-- Body of canActivate of the AuthorizationGuard (authorization.guard.ts
lines 42-136), in source order: read the organization header with
`.toString()`, resolve the organization membership, require exactly one
record (otherwise BadRequest), apply the tenant-type gate, compute the
isUnAuthorized flag from the access-role bitmask, read the project header
with `.toString()`, and validate the project. -/
def agCanActivateBody (c : Collaborators) (req : AGRequest) (meta : AGMetadata) : GRes Bool :=
  jsToString req.organizationId (fun organizationId =>
    gbind (agValidateOrganizationMembers c organizationId req.userId
        meta.fetchDeletedRecords req.deletedStatusFromFilter
        meta.fetchDeletedRecordsLevel)
      (fun organizationMembers =>
        gbind
          (if organizationMembers.totalCount = 1 then
            match organizationMembers.data with
            | [] => gthrow Exc.typeError
            | m :: _ =>
              if m.organization.otype == OrganizationType.salesforceOnly &&
                  meta.disableFeatureForSalesforceType then
                gthrow (Exc.unauthorizedException (some (unauthorizedFeatureMsg req.userId)))
              else
                gpure (!(satisfiesAccessRole (authorizationUserRoleBit m.role)
                  meta.accessRole))
          else
            gthrow (Exc.badRequestException
              (notAPartOfOrganizationMsg req.userId organizationId)))
          (fun isUnAuthorized =>
            jsToString req.projectId (fun projectId =>
              gbind (agValidateProject c req.organizationId projectId req.userId
                  organizationMembers req.deletedStatusFromFilter
                  meta.disableFeatureForSalesforceType isUnAuthorized
                  meta.fetchDeletedRecordsLevel meta.fetchDeletedRecords
                  meta.projectAccessRole)
                (fun _ => gpure true)))))

/-- canActivate of the AuthorizationGuard (authorization.guard.ts lines
41-140): the body wrapped by the outer catch rerouting through
handleError. -/
def agCanActivate (c : Collaborators) (req : AGRequest) (meta : AGMetadata) : GRes Bool :=
  gwrap agHandleErrorExc (agCanActivateBody c req meta)

/-- Reduction of `gbind` on a successful first step. -/
theorem gbind_ok {α β : Type} (a : α) (t : List LookupEvent) (f : α → GRes β) :
    gbind (Except.ok a, t) f = ((f a).1, t ++ (f a).2) := by
  simp only [gbind]

/-- Reduction of `gbind` on a failing first step. -/
theorem gbind_error {α β : Type} (e : Exc) (t : List LookupEvent) (f : α → GRes β) :
    gbind (Except.error e, t) f = (Except.error e, t) := by
  simp only [gbind]

/-- Reduction of `gwrap` on success. -/
theorem gwrap_ok {α : Type} (h : Exc → Exc) (a : α) (t : List LookupEvent) :
    gwrap h (Except.ok a, t) = (Except.ok a, t) := by
  simp only [gwrap]

/-- Reduction of `gwrap` on an exception. -/
theorem gwrap_error {α : Type} (h : Exc → Exc) (e : Exc) (t : List LookupEvent) :
    gwrap h ((Except.error e : Except Exc α), t) = (Except.error (h e), t) := by
  simp only [gwrap]

/-- Constant-oracle collaborators used by concrete scenarios: uuid
validation always accepts unless `uuidOk` is false, and each service
returns a fixed result regardless of its filters. -/
def fixColl (uuidOk : Bool)
    (orgResult : Except Exc (PaginatedData OrganizationMemberDTO))
    (pmResult : Except Exc (PaginatedData ProjectMemberDTO))
    (projResult : Except Exc ProjectDTO)
    (envResult : Except Exc (Option String)) : Collaborators :=
  { uuidValidate := fun _ => uuidOk
    findAllOrganizationMembers := fun _ => orgResult
    findAllProjectMembers := fun _ => pmResult
    findProjectById := fun _ => projResult
    findEnvironmentId := fun _ _ _ => envResult }

/-- A normal-tenant organization. -/
def orgNormal : OrganizationDTO := OrganizationDTO.mk OrganizationType.normal

/-- A restricted (salesforce-only) organization. -/
def orgSalesforce : OrganizationDTO := OrganizationDTO.mk OrganizationType.salesforceOnly

/-- A single organization membership with the given role in a normal
organization. -/
def oneOrgMember (role : OrganizationUserRoles) : PaginatedData OrganizationMemberDTO :=
  PaginatedData.mk [OrganizationMemberDTO.mk role orgNormal] 1

/-- A single project membership with the given role. -/
def onePmMember (role : ProjectUserRoles) : PaginatedData ProjectMemberDTO :=
  PaginatedData.mk [ProjectMemberDTO.mk role] 1

/-- Zero project memberships. -/
def noPmMembers : PaginatedData ProjectMemberDTO := PaginatedData.mk [] 0

/-- A standard V1 request with all three id headers present. -/
def reqV1Std : V1Request :=
  V1Request.mk (some ("org-1")) (some ("proj-1")) (some ("env-1")) none ("user-1")

/-- A standard AuthorizationGuard request with both id headers present. -/
def reqAGStd : AGRequest :=
  AGRequest.mk (some ("org-1")) (some ("proj-1")) none ("user-1")

/-- Claim C5: for an operation whose declared fetch-deleted level matches
the current tier and whose fetchDeletedRecords flag is true, the resolved
deleted-status filter is ONLY_DELETED at the Project tier but WITH_DELETED
at the Organization and Environment tiers, with identical input flags. -/
theorem c5_deleted_status_tier_asymmetry (projectId userId : String)
    (dsf : Option DeletedStatus) :
    (getProjectMemberFilters projectId userId
        (some FetchDeletedRecordsAccessLevel.project) true dsf).deletedStatus =
      DeletedStatus.onlyDeleted ∧
    (buildOrgMemberFilters projectId userId
        (resolveOrgDeletedStatus (some FetchDeletedRecordsAccessLevel.organization)
          true dsf)).deletedStatus = DeletedStatus.withDeleted ∧
    resolveEnvDeletedStatus (some FetchDeletedRecordsAccessLevel.environment) true dsf =
      DeletedStatus.withDeleted := by
  exact ⟨rfl, rfl, rfl⟩

/-- Claim C8, round trip: an organization Member (not Owner) with exactly
one project membership of role MEMBER is allowed when the declared project
role is MEMBER, in both guards; with declared project role MANAGER both
guards deny, the project-role check raising the bare UnauthorizedException
(the InsufficientRole kind of the taxonomy). -/
theorem c8_member_role_round_trip :
    (v1CanActivate
        (fixColl true (Except.ok (oneOrgMember OrganizationUserRoles.member))
          (Except.ok (onePmMember ProjectUserRoles.member))
          (Except.ok (ProjectDTO.mk ProjectType.normal)) (Except.ok (some ("found"))))
        reqV1Std
        (V1Metadata.mk false none false none (some ProjectUserRoles.member))).1 =
      Except.ok true ∧
    (v1CanActivate
        (fixColl true (Except.ok (oneOrgMember OrganizationUserRoles.member))
          (Except.ok (onePmMember ProjectUserRoles.member))
          (Except.ok (ProjectDTO.mk ProjectType.normal)) (Except.ok (some ("found"))))
        reqV1Std
        (V1Metadata.mk false none false none (some ProjectUserRoles.manager))).1 =
      Except.error (Exc.guardValidationFailedException none) ∧
    (v1ValidateProjectCore
        (fixColl true (Except.ok (oneOrgMember OrganizationUserRoles.member))
          (Except.ok (onePmMember ProjectUserRoles.member))
          (Except.ok (ProjectDTO.mk ProjectType.normal)) (Except.ok (some ("found"))))
        ("proj-1") ("user-1") (oneOrgMember OrganizationUserRoles.member) none none
        false false (some ProjectUserRoles.manager)).1 =
      Except.error (Exc.unauthorizedException none) ∧
    (agCanActivate
        (fixColl true (Except.ok (oneOrgMember OrganizationUserRoles.member))
          (Except.ok (onePmMember ProjectUserRoles.member))
          (Except.ok (ProjectDTO.mk ProjectType.normal)) (Except.ok (some ("found"))))
        reqAGStd
        (AGMetadata.mk (some 1) false false none (some ProjectUserRoles.member))).1 =
      Except.ok true ∧
    (agCanActivate
        (fixColl true (Except.ok (oneOrgMember OrganizationUserRoles.member))
          (Except.ok (onePmMember ProjectUserRoles.member))
          (Except.ok (ProjectDTO.mk ProjectType.normal)) (Except.ok (some ("found"))))
        reqAGStd
        (AGMetadata.mk (some 1) false false none (some ProjectUserRoles.manager))).1 =
      Except.error (Exc.guardValidationFailedException
        (some GuardValidationExceptionTypes.unauthorizedException)) := by
  exact ⟨rfl, rfl, rfl, rfl, rfl⟩

/-- Claim C1, counterexample: in the AuthorizationGuard pipeline a
bad-request failure (here the NotOrganizationMember denial raised when the
membership count is 0) does NOT pass through unchanged: the error
classifier of that guard re-throws it as the generic guard failure tagged
UNAUTHORIZED_EXCEPTION, dropping the original message. -/
theorem c1_counterexample :
    (agCanActivateBody
        (fixColl true (Except.ok (PaginatedData.mk [] 0)) (Except.ok noPmMembers)
          (Except.ok (ProjectDTO.mk ProjectType.normal)) (Except.ok none))
        reqAGStd (AGMetadata.mk (some 1) false false none none)).1 =
      Except.error (Exc.badRequestException
        (notAPartOfOrganizationMsg ("user-1") ("org-1"))) ∧
    (agCanActivate
        (fixColl true (Except.ok (PaginatedData.mk [] 0)) (Except.ok noPmMembers)
          (Except.ok (ProjectDTO.mk ProjectType.normal)) (Except.ok none))
        reqAGStd (AGMetadata.mk (some 1) false false none none)).1 =
      Except.error (Exc.guardValidationFailedException
        (some GuardValidationExceptionTypes.unauthorizedException)) ∧
    Exc.guardValidationFailedException
        (some GuardValidationExceptionTypes.unauthorizedException) ≠
      Exc.badRequestException (notAPartOfOrganizationMsg ("user-1") ("org-1")) := by
  refine ⟨rfl, rfl, ?_⟩
  intro h
  exact Exc.noConfusion h

/-- Claim C1 (amended): the classifiers replace every failure by the
generic guard failure.  The V1 classifier tags UNAUTHORIZED_EXCEPTION
exactly on an UnauthorizedException and uses the untyped guard failure for
everything else, bad-request failures included (their message is dropped,
not retained); the AuthorizationGuard classifier tags every failure
UNAUTHORIZED_EXCEPTION, so every error leaving that pipeline is the
UNAUTHORIZED-tagged guard failure. -/
theorem c1_classifier_behavior :
    (∀ e : Exc, agHandleErrorExc e =
      Exc.guardValidationFailedException
        (some GuardValidationExceptionTypes.unauthorizedException)) ∧
    (∀ m : Option String, v1HandleErrorExc (Exc.unauthorizedException m) =
      Exc.guardValidationFailedException
        (some GuardValidationExceptionTypes.unauthorizedException)) ∧
    (∀ msg : String, v1HandleErrorExc (Exc.badRequestException msg) =
      Exc.guardValidationFailedException none) ∧
    (∀ (c : Collaborators) (req : AGRequest) (meta : AGMetadata) (e : Exc),
      (agCanActivate c req meta).1 = Except.error e →
      e = Exc.guardValidationFailedException
        (some GuardValidationExceptionTypes.unauthorizedException)) := by
  refine ⟨fun e => rfl, fun m => rfl, fun msg => rfl, ?_⟩
  intro c req meta e h
  unfold agCanActivate at h
  rcases hb : agCanActivateBody c req meta with ⟨r, t⟩
  rw [hb] at h
  cases r with
  | ok a => simp [gwrap] at h
  | error e2 =>
    rw [gwrap_error] at h
    simp only [agHandleErrorExc] at h
    exact (Except.error.injEq _ _).mp h.symm

/-- Witness for c1_classifier_behavior: the pipeline-level part applied at
a concrete failing input. -/
theorem c1_classifier_behavior_witness :
    Exc.guardValidationFailedException
        (some GuardValidationExceptionTypes.unauthorizedException) =
      Exc.guardValidationFailedException
        (some GuardValidationExceptionTypes.unauthorizedException) :=
  c1_classifier_behavior.2.2.2
    (fixColl true (Except.ok (PaginatedData.mk [] 0)) (Except.ok noPmMembers)
      (Except.ok (ProjectDTO.mk ProjectType.normal)) (Except.ok none))
    reqAGStd (AGMetadata.mk (some 1) false false none none)
    (Exc.guardValidationFailedException
      (some GuardValidationExceptionTypes.unauthorizedException))
    rfl

/-- Claim C2, counterexample: a request with a well-formed environment id
whose environment lookup reports that no environment exists is ALLOWED by
the V1 pipeline — canActivate invokes validateEnvironmentId without await,
so the denial raised inside it is dropped — and the remaining lookups are
still issued (the event trace shows the environment lookup followed by the
organization, project and project-member lookups). -/
theorem c2_counterexample :
    (v1CanActivate
        (fixColl true (Except.ok (oneOrgMember OrganizationUserRoles.member))
          (Except.ok noPmMembers) (Except.ok (ProjectDTO.mk ProjectType.normal))
          (Except.ok none))
        reqV1Std (V1Metadata.mk false none false none none)).1 = Except.ok true ∧
    (v1CanActivate
        (fixColl true (Except.ok (oneOrgMember OrganizationUserRoles.member))
          (Except.ok noPmMembers) (Except.ok (ProjectDTO.mk ProjectType.normal))
          (Except.ok none))
        reqV1Std (V1Metadata.mk false none false none none)).2 =
      [LookupEvent.findEnvironmentId ("env-1") ("proj-1") ("org-1"),
        LookupEvent.findAllOrganizationMembers
          (buildOrgMemberFilters ("org-1") ("user-1") DeletedStatus.notDeleted),
        LookupEvent.findProjectById ("proj-1"),
        LookupEvent.findAllProjectMembers
          (ProjectMemberFiltersDTO.mk ("proj-1") ("user-1") DeletedStatus.notDeleted)] := by
  exact ⟨rfl, rfl⟩

/-- Claim C2 (amended): when the environment lookup reports no environment
under the given (project, organization) pair, the environment validator
itself denies, but with the guard failure tagged UNAUTHORIZED_EXCEPTION —
the internal throw is the bare UnauthorizedException, not a
ResourceNotFound bad-request — and because canActivate does not await the
validator this denial never reaches the pipeline (c2_counterexample shows
the pipeline returning allow on exactly this scenario). -/
theorem c2_environment_not_found_unauthorized (c : Collaborators)
    (es ps os : String) (fdr : Bool) (dsf : Option DeletedStatus)
    (lvl : Option FetchDeletedRecordsAccessLevel)
    (hid : v1IdCheckFails c (some es) = false)
    (henv : c.findEnvironmentId es ps os = Except.ok none) :
    (v1ValidateEnvironmentIdCore c (some es) ps os fdr dsf lvl).1 =
      Except.error (Exc.unauthorizedException none) ∧
    (v1ValidateEnvironmentId c (some es) ps os fdr dsf lvl).1 =
      Except.error (Exc.guardValidationFailedException
        (some GuardValidationExceptionTypes.unauthorizedException)) := by
  have hcore : v1ValidateEnvironmentIdCore c (some es) ps os fdr dsf lvl =
      (Except.error (Exc.unauthorizedException none),
        [LookupEvent.findEnvironmentId es ps os]) := by
    simp only [v1ValidateEnvironmentIdCore, hid, Bool.false_eq_true, if_false,
      callFindEnvironmentId, Option.getD, henv, gbind, gthrow, List.append_nil]
  refine ⟨by rw [hcore], ?_⟩
  simp only [v1ValidateEnvironmentId]
  rw [hcore, gwrap_error]
  rfl

/-- Witness for c2_environment_not_found_unauthorized at a concrete input. -/
theorem c2_environment_not_found_unauthorized_witness :
    (v1ValidateEnvironmentIdCore
        (fixColl true (Except.ok (oneOrgMember OrganizationUserRoles.member))
          (Except.ok noPmMembers) (Except.ok (ProjectDTO.mk ProjectType.normal))
          (Except.ok none))
        (some ("env-1")) ("proj-1") ("org-1") false none none).1 =
      Except.error (Exc.unauthorizedException none) ∧
    (v1ValidateEnvironmentId
        (fixColl true (Except.ok (oneOrgMember OrganizationUserRoles.member))
          (Except.ok noPmMembers) (Except.ok (ProjectDTO.mk ProjectType.normal))
          (Except.ok none))
        (some ("env-1")) ("proj-1") ("org-1") false none none).1 =
      Except.error (Exc.guardValidationFailedException
        (some GuardValidationExceptionTypes.unauthorizedException)) :=
  c2_environment_not_found_unauthorized _ ("env-1") ("proj-1") ("org-1") false none none
    rfl rfl

/-- A uuid validator accepting exactly one identifier, used by scenarios
that need one well-formed and one malformed identifier. -/
def uuidOnly (good : String) : String → Bool := fun s => s == good

/-- Claim C3, counterexample: the AuthorizationGuard performs no syntactic
identifier validation at all — a request whose organization and project
ids are not valid identifier tokens (the oracle validator rejects every
string) is ALLOWED, and three collaborator lookups are issued; no
InvalidIdentifierFormat denial is produced before (or after) them. -/
theorem c3_counterexample :
    (agCanActivate
        (fixColl false (Except.ok (oneOrgMember OrganizationUserRoles.owner))
          (Except.ok noPmMembers) (Except.ok (ProjectDTO.mk ProjectType.normal))
          (Except.ok none))
        (AGRequest.mk (some ("not-a-uuid")) (some ("also-not-a-uuid")) none ("user-1"))
        (AGMetadata.mk (some 4) false false none none)).1 = Except.ok true ∧
    (agCanActivate
        (fixColl false (Except.ok (oneOrgMember OrganizationUserRoles.owner))
          (Except.ok noPmMembers) (Except.ok (ProjectDTO.mk ProjectType.normal))
          (Except.ok none))
        (AGRequest.mk (some ("not-a-uuid")) (some ("also-not-a-uuid")) none ("user-1"))
        (AGMetadata.mk (some 4) false false none none)).2.length = 3 := by
  exact ⟨rfl, rfl⟩

/-- Claim C3 (amended): only the V1 guard validates identifier syntax, and
only for the organization and project identifiers: a request whose
organization id fails the check, or whose project id is present, truthy
and not a valid token, is denied before any collaborator lookup is issued
(the event trace is empty).  A malformed environment id is detected inside
the un-awaited environment validator, so that denial is dropped and does
not stop the pipeline; the AuthorizationGuard validates nothing
(c3_counterexample). -/
theorem c3_v1_format_denials_before_lookups (c : Collaborators)
    (req : V1Request) (meta : V1Metadata) :
    (v1IdCheckFails c req.organizationId = true →
      v1CanActivate c req meta =
        (Except.error (Exc.guardValidationFailedException none), [])) ∧
    (∀ ps : String, req.projectId = some ps →
      v1IdCheckFails c req.organizationId = false →
      (ps != "" && !(c.uuidValidate ps)) = true →
      v1CanActivate c req meta =
        (Except.error (Exc.guardValidationFailedException none), [])) := by
  constructor
  · intro h1
    simp only [v1CanActivate, v1CanActivateBody, v1ValidateOrganizationId,
      v1ValidateOrganizationIdCore, h1, if_true, gthrow, gwrap, gbind,
      v1HandleErrorExc]
  · intro ps hview h1 h2
    simp only [v1CanActivate, v1CanActivateBody, v1ValidateOrganizationId,
      v1ValidateOrganizationIdCore, h1, Bool.false_eq_true, if_false, gpure,
      hview, v1ProjectIdFormatCheck, h2, if_true, gthrow, gwrap, gbind,
      v1HandleErrorExc, List.append_nil, List.nil_append]

/-- Collaborators whose uuid validator accepts only the organization id of
`reqV1Std`, so its project id fails the syntactic check. -/
def collOrgOnlyUuid : Collaborators :=
  { fixColl true (Except.ok (oneOrgMember OrganizationUserRoles.member))
      (Except.ok noPmMembers) (Except.ok (ProjectDTO.mk ProjectType.normal))
      (Except.ok none) with
    uuidValidate := uuidOnly ("org-1") }

/-- Witness for c3_v1_format_denials_before_lookups: both parts applied at
concrete inputs (a malformed organization id, then a well-formed
organization id with a malformed project id). -/
theorem c3_v1_format_denials_before_lookups_witness :
    (v1CanActivate
        (fixColl false (Except.ok (oneOrgMember OrganizationUserRoles.member))
          (Except.ok noPmMembers) (Except.ok (ProjectDTO.mk ProjectType.normal))
          (Except.ok none))
        reqV1Std (V1Metadata.mk false none false none none) =
      (Except.error (Exc.guardValidationFailedException none), [])) ∧
    (v1CanActivate collOrgOnlyUuid reqV1Std (V1Metadata.mk false none false none none) =
      (Except.error (Exc.guardValidationFailedException none), [])) :=
  ⟨(c3_v1_format_denials_before_lookups
      (fixColl false (Except.ok (oneOrgMember OrganizationUserRoles.member))
        (Except.ok noPmMembers) (Except.ok (ProjectDTO.mk ProjectType.normal))
        (Except.ok none))
      reqV1Std (V1Metadata.mk false none false none none)).1 rfl,
    (c3_v1_format_denials_before_lookups collOrgOnlyUuid reqV1Std
      (V1Metadata.mk false none false none none)).2 ("proj-1") rfl rfl rfl⟩

/-- Claim C9: an operation marked isProjectValidationOptional=true with no
project identifier supplied (absent or empty header) is allowed
immediately by the V1 guard, and no collaborator lookup of any kind is
issued — the event trace of the whole pipeline is empty. -/
theorem c9_optional_project_allows_without_lookups (c : Collaborators)
    (req : V1Request) (meta : V1Metadata)
    (horg : v1IdCheckFails c req.organizationId = false)
    (hopt : meta.isProjectValidationOptional = some true)
    (hproj : jsTruthy req.projectId = false) :
    v1CanActivate c req meta = (Except.ok true, []) := by
  cases hpj : req.projectId with
  | none =>
    simp only [v1CanActivate, v1CanActivateBody, v1ValidateOrganizationId,
      v1ValidateOrganizationIdCore, horg, Bool.false_eq_true, if_false, gpure,
      gbind, gwrap, hpj, v1ProjectIdFormatCheck, hopt, jsTruthy, decide_True,
      Bool.not_false, Bool.and_self, if_true, List.append_nil, List.nil_append]
  | some s =>
    rw [hpj] at hproj
    have hs : s = "" := by simpa [jsTruthy] using hproj
    subst hs
    simp only [v1CanActivate, v1CanActivateBody, v1ValidateOrganizationId,
      v1ValidateOrganizationIdCore, horg, Bool.false_eq_true, if_false, gpure,
      gbind, gwrap, hpj, v1ProjectIdFormatCheck, hopt, jsTruthy, decide_True,
      Bool.not_false, Bool.and_self, if_true, List.append_nil, List.nil_append,
      bne_self_eq_false, Bool.false_and]

/-- Witness for c9_optional_project_allows_without_lookups at a concrete
input. -/
theorem c9_optional_project_allows_without_lookups_witness :
    v1CanActivate
        (fixColl true (Except.ok (oneOrgMember OrganizationUserRoles.member))
          (Except.ok noPmMembers) (Except.ok (ProjectDTO.mk ProjectType.normal))
          (Except.ok none))
        (V1Request.mk (some ("org-1")) none none none ("user-1"))
        (V1Metadata.mk false none false (some true) none) = (Except.ok true, []) :=
  c9_optional_project_allows_without_lookups _ _ _ rfl rfl rfl

/-- Claim C6: whenever the organization-membership lookup returns a total
count different from 1, both guards deny: the organization stage raises
the NotOrganizationMember bad-request (with its not-a-part-of-organization
message) regardless of any declared access-role mask or project role, and
each pipeline terminates with its classifier output (untyped guard
failure in the V1 guard, UNAUTHORIZED-tagged guard failure in the
AuthorizationGuard). -/
theorem c6_org_membership_count_must_be_one
    (c : Collaborators) (os ps uid : String) (envId : Option String)
    (dsf : Option DeletedStatus) (lvl : Option FetchDeletedRecordsAccessLevel)
    (fdr gate : Bool) (opt : Option Bool) (par : Option ProjectUserRoles)
    (mask : Option Nat) (r : PaginatedData OrganizationMemberDTO)
    (hos : v1IdCheckFails c (some os) = false)
    (hps1 : (ps != "") = true)
    (hps2 : c.uuidValidate ps = true)
    (hr : c.findAllOrganizationMembers
        (buildOrgMemberFilters os uid (resolveOrgDeletedStatus lvl fdr dsf)) =
      Except.ok r)
    (hcount : r.totalCount ≠ 1) :
    (v1ValidateOrganizationMembersCore c os uid fdr dsf lvl gate).1 =
      Except.error (Exc.badRequestException (notAPartOfOrganizationMsg uid os)) ∧
    (v1CanActivate c (V1Request.mk (some os) (some ps) envId dsf uid)
        (V1Metadata.mk fdr lvl gate opt par)).1 =
      Except.error (Exc.guardValidationFailedException none) ∧
    (agCanActivateBody c (AGRequest.mk (some os) (some ps) dsf uid)
        (AGMetadata.mk mask fdr gate lvl par)).1 =
      Except.error (Exc.badRequestException (notAPartOfOrganizationMsg uid os)) ∧
    (agCanActivate c (AGRequest.mk (some os) (some ps) dsf uid)
        (AGMetadata.mk mask fdr gate lvl par)).1 =
      Except.error (Exc.guardValidationFailedException
        (some GuardValidationExceptionTypes.unauthorizedException)) := by
  have hps0 : (ps == "") = false := by simpa [bne] using hps1
  have hcore : (v1ValidateOrganizationMembersCore c os uid fdr dsf lvl gate).1 =
      Except.error (Exc.badRequestException (notAPartOfOrganizationMsg uid os)) := by
    simp [v1ValidateOrganizationMembersCore, callFindAllOrganizationMembers, hr,
      gbind, hcount, gthrow]
  refine ⟨hcore, ?_, ?_, ?_⟩
  · simp [v1CanActivate, v1CanActivateBody, v1ValidateOrganizationId,
      v1ValidateOrganizationIdCore, hos, gpure, gbind, gwrap, gdiscard,
      v1ProjectIdFormatCheck, hps0, hps1, hps2, jsTruthy,
      v1ValidateOrganizationMembers, v1ValidateOrganizationMembersCore,
      callFindAllOrganizationMembers, hr, hcount, gthrow, v1HandleErrorExc]
  · simp [agCanActivateBody, jsToString, agValidateOrganizationMembers,
      callFindAllOrganizationMembers, hr, gbind, gwrap, gthrow, hcount]
  · simp [agCanActivate, agCanActivateBody, jsToString,
      agValidateOrganizationMembers, callFindAllOrganizationMembers, hr, gbind,
      gwrap, gthrow, hcount, agHandleErrorExc]

/-- Witness for c6_org_membership_count_must_be_one: the lookup returns
zero records for the caller. -/
theorem c6_org_membership_count_must_be_one_witness :
    (v1ValidateOrganizationMembersCore
        (fixColl true (Except.ok (PaginatedData.mk [] 0)) (Except.ok noPmMembers)
          (Except.ok (ProjectDTO.mk ProjectType.normal)) (Except.ok none))
        ("org-1") ("user-1") false none none false).1 =
      Except.error (Exc.badRequestException
        (notAPartOfOrganizationMsg ("user-1") ("org-1"))) ∧
    (v1CanActivate
        (fixColl true (Except.ok (PaginatedData.mk [] 0)) (Except.ok noPmMembers)
          (Except.ok (ProjectDTO.mk ProjectType.normal)) (Except.ok none))
        (V1Request.mk (some ("org-1")) (some ("proj-1")) none none ("user-1"))
        (V1Metadata.mk false none false none none)).1 =
      Except.error (Exc.guardValidationFailedException none) ∧
    (agCanActivateBody
        (fixColl true (Except.ok (PaginatedData.mk [] 0)) (Except.ok noPmMembers)
          (Except.ok (ProjectDTO.mk ProjectType.normal)) (Except.ok none))
        (AGRequest.mk (some ("org-1")) (some ("proj-1")) none ("user-1"))
        (AGMetadata.mk none false false none none)).1 =
      Except.error (Exc.badRequestException
        (notAPartOfOrganizationMsg ("user-1") ("org-1"))) ∧
    (agCanActivate
        (fixColl true (Except.ok (PaginatedData.mk [] 0)) (Except.ok noPmMembers)
          (Except.ok (ProjectDTO.mk ProjectType.normal)) (Except.ok none))
        (AGRequest.mk (some ("org-1")) (some ("proj-1")) none ("user-1"))
        (AGMetadata.mk none false false none none)).1 =
      Except.error (Exc.guardValidationFailedException
        (some GuardValidationExceptionTypes.unauthorizedException)) :=
  c6_org_membership_count_must_be_one _ ("org-1") ("proj-1") ("user-1") none none
    none false false none none none (PaginatedData.mk [] 0) rfl rfl rfl rfl
    (by decide)

/-- Claim C7: when the resolved membership carries a SALESFORCE_ONLY
(restricted) organization and the operation sets the tenant-gate flag,
both guards deny with the TenantFeatureDisabled failure — the
UnauthorizedException carrying the unauthorized-to-view-this-feature
message — whatever the caller role and whatever access-role mask or
project role the operation declares; each pipeline then terminates with
its classifier output. -/
theorem c7_salesforce_tenant_gate_denies
    (c : Collaborators) (os ps uid : String) (envId : Option String)
    (dsf : Option DeletedStatus) (lvl : Option FetchDeletedRecordsAccessLevel)
    (fdr : Bool) (opt : Option Bool) (par : Option ProjectUserRoles)
    (mask : Option Nat) (r : PaginatedData OrganizationMemberDTO)
    (role : OrganizationUserRoles) (rest : List OrganizationMemberDTO)
    (hos : v1IdCheckFails c (some os) = false)
    (hps1 : (ps != "") = true)
    (hps2 : c.uuidValidate ps = true)
    (hr : c.findAllOrganizationMembers
        (buildOrgMemberFilters os uid (resolveOrgDeletedStatus lvl fdr dsf)) =
      Except.ok r)
    (hcount : r.totalCount = 1)
    (hdata : r.data =
      OrganizationMemberDTO.mk role (OrganizationDTO.mk OrganizationType.salesforceOnly)
        :: rest) :
    (v1ValidateOrganizationMembersCore c os uid fdr dsf lvl true).1 =
      Except.error (Exc.unauthorizedException (some (unauthorizedFeatureMsg uid))) ∧
    (v1CanActivate c (V1Request.mk (some os) (some ps) envId dsf uid)
        (V1Metadata.mk fdr lvl true opt par)).1 =
      Except.error (Exc.guardValidationFailedException none) ∧
    (agCanActivateBody c (AGRequest.mk (some os) (some ps) dsf uid)
        (AGMetadata.mk mask fdr true lvl par)).1 =
      Except.error (Exc.unauthorizedException (some (unauthorizedFeatureMsg uid))) ∧
    (agCanActivate c (AGRequest.mk (some os) (some ps) dsf uid)
        (AGMetadata.mk mask fdr true lvl par)).1 =
      Except.error (Exc.guardValidationFailedException
        (some GuardValidationExceptionTypes.unauthorizedException)) := by
  have hps0 : (ps == "") = false := by simpa [bne] using hps1
  refine ⟨?_, ?_, ?_, ?_⟩
  · simp [v1ValidateOrganizationMembersCore, callFindAllOrganizationMembers, hr,
      gbind, hcount, hdata, gthrow]
  · simp [v1CanActivate, v1CanActivateBody, v1ValidateOrganizationId,
      v1ValidateOrganizationIdCore, hos, gpure, gbind, gwrap, gdiscard,
      v1ProjectIdFormatCheck, hps0, hps1, hps2, jsTruthy,
      v1ValidateOrganizationMembers, v1ValidateOrganizationMembersCore,
      callFindAllOrganizationMembers, hr, hcount, hdata, gthrow,
      v1HandleErrorExc]
  · simp [agCanActivateBody, jsToString, agValidateOrganizationMembers,
      callFindAllOrganizationMembers, hr, gbind, gwrap, gthrow, hcount, hdata]
  · simp [agCanActivate, agCanActivateBody, jsToString,
      agValidateOrganizationMembers, callFindAllOrganizationMembers, hr, gbind,
      gwrap, gthrow, hcount, hdata, agHandleErrorExc]

/-- Witness for c7_salesforce_tenant_gate_denies: an Owner of a restricted
organization is still denied when the tenant gate is set. -/
theorem c7_salesforce_tenant_gate_denies_witness :
    (v1ValidateOrganizationMembersCore
        (fixColl true
          (Except.ok (PaginatedData.mk
            [OrganizationMemberDTO.mk OrganizationUserRoles.owner orgSalesforce] 1))
          (Except.ok noPmMembers) (Except.ok (ProjectDTO.mk ProjectType.normal))
          (Except.ok none))
        ("org-1") ("user-1") false none none true).1 =
      Except.error (Exc.unauthorizedException
        (some (unauthorizedFeatureMsg ("user-1")))) ∧
    (v1CanActivate
        (fixColl true
          (Except.ok (PaginatedData.mk
            [OrganizationMemberDTO.mk OrganizationUserRoles.owner orgSalesforce] 1))
          (Except.ok noPmMembers) (Except.ok (ProjectDTO.mk ProjectType.normal))
          (Except.ok none))
        (V1Request.mk (some ("org-1")) (some ("proj-1")) none none ("user-1"))
        (V1Metadata.mk false none true none none)).1 =
      Except.error (Exc.guardValidationFailedException none) ∧
    (agCanActivateBody
        (fixColl true
          (Except.ok (PaginatedData.mk
            [OrganizationMemberDTO.mk OrganizationUserRoles.owner orgSalesforce] 1))
          (Except.ok noPmMembers) (Except.ok (ProjectDTO.mk ProjectType.normal))
          (Except.ok none))
        (AGRequest.mk (some ("org-1")) (some ("proj-1")) none ("user-1"))
        (AGMetadata.mk (some 4) false true none none)).1 =
      Except.error (Exc.unauthorizedException
        (some (unauthorizedFeatureMsg ("user-1")))) ∧
    (agCanActivate
        (fixColl true
          (Except.ok (PaginatedData.mk
            [OrganizationMemberDTO.mk OrganizationUserRoles.owner orgSalesforce] 1))
          (Except.ok noPmMembers) (Except.ok (ProjectDTO.mk ProjectType.normal))
          (Except.ok none))
        (AGRequest.mk (some ("org-1")) (some ("proj-1")) none ("user-1"))
        (AGMetadata.mk (some 4) false true none none)).1 =
      Except.error (Exc.guardValidationFailedException
        (some GuardValidationExceptionTypes.unauthorizedException)) :=
  c7_salesforce_tenant_gate_denies _ ("org-1") ("proj-1") ("user-1") none none none
    false none none (some 4)
    (PaginatedData.mk
      [OrganizationMemberDTO.mk OrganizationUserRoles.owner orgSalesforce] 1)
    OrganizationUserRoles.owner [] rfl rfl rfl rfl rfl rfl

/-- Claim C4: an organization Owner satisfies any declared project-role
requirement with zero project memberships: with the membership lookup
returning exactly one Owner record, a resolvable project and an empty
project-membership result, both pipelines allow — no NotProjectMember or
InsufficientRole denial is raised — for every declared project role.  For
the AuthorizationGuard the declared access-role mask is any mask satisfied
by the Owner bit (per the spec every mask admits Owner). -/
theorem c4_org_owner_bypasses_project_role_check
    (c : Collaborators) (os ps uid : String) (envId : Option String)
    (dsf : Option DeletedStatus) (lvl : Option FetchDeletedRecordsAccessLevel)
    (fdr gate : Bool) (opt : Option Bool) (par : ProjectUserRoles)
    (mask : Option Nat) (org : OrganizationDTO) (proj : ProjectDTO)
    (hos : v1IdCheckFails c (some os) = false)
    (hps1 : (ps != "") = true)
    (hps2 : c.uuidValidate ps = true)
    (hr : c.findAllOrganizationMembers
        (buildOrgMemberFilters os uid (resolveOrgDeletedStatus lvl fdr dsf)) =
      Except.ok (PaginatedData.mk
        [OrganizationMemberDTO.mk OrganizationUserRoles.owner org] 1))
    (hgate : (org.otype == OrganizationType.salesforceOnly && gate) = false)
    (hproj : c.findProjectById ps = Except.ok proj)
    (hpm : c.findAllProjectMembers (getProjectMemberFilters ps uid lvl fdr dsf) =
      Except.ok (PaginatedData.mk [] 0))
    (hmask : satisfiesAccessRole
        (authorizationUserRoleBit OrganizationUserRoles.owner) mask = true) :
    (v1CanActivate c (V1Request.mk (some os) (some ps) envId dsf uid)
        (V1Metadata.mk fdr lvl gate opt (some par))).1 = Except.ok true ∧
    (agCanActivate c (AGRequest.mk (some os) (some ps) dsf uid)
        (AGMetadata.mk mask fdr gate lvl (some par))).1 = Except.ok true := by
  have hps0 : (ps == "") = false := by simpa [bne] using hps1
  constructor
  · simp [v1CanActivate, v1CanActivateBody, v1ValidateOrganizationId,
      v1ValidateOrganizationIdCore, hos, gpure, gbind, gwrap, gdiscard,
      v1ProjectIdFormatCheck, hps0, hps1, hps2, jsTruthy,
      v1ValidateOrganizationMembers, v1ValidateOrganizationMembersCore,
      callFindAllOrganizationMembers, hr, hgate, v1ValidateProject,
      v1ValidateProjectCore, getProjectByIdG, hproj,
      callFindAllProjectMembers, hpm, gthrow, v1HandleErrorExc]
  · simp [agCanActivate, agCanActivateBody, jsToString,
      agValidateOrganizationMembers, callFindAllOrganizationMembers, hr, hgate,
      gbind, gwrap, gdiscard, gpure, gthrow, hmask, agValidateProject,
      agValidateProjectCore, getProjectByIdG, hproj, callFindAllProjectMembers,
      hpm, agValidateSalesforceType, agValidateSalesforceTypeCore,
      agProjectRoleBlock, agHandleErrorExc]

/-- Witness for c4_org_owner_bypasses_project_role_check: an Owner with
zero project memberships and a declared MANAGER project role is allowed by
both guards. -/
theorem c4_org_owner_bypasses_project_role_check_witness :
    (v1CanActivate
        (fixColl true (Except.ok (oneOrgMember OrganizationUserRoles.owner))
          (Except.ok (PaginatedData.mk [] 0))
          (Except.ok (ProjectDTO.mk ProjectType.normal)) (Except.ok (some ("found"))))
        (V1Request.mk (some ("org-1")) (some ("proj-1")) (some ("env-1")) none
          ("user-1"))
        (V1Metadata.mk false none false none (some ProjectUserRoles.manager))).1 =
      Except.ok true ∧
    (agCanActivate
        (fixColl true (Except.ok (oneOrgMember OrganizationUserRoles.owner))
          (Except.ok (PaginatedData.mk [] 0))
          (Except.ok (ProjectDTO.mk ProjectType.normal)) (Except.ok (some ("found"))))
        (AGRequest.mk (some ("org-1")) (some ("proj-1")) none ("user-1"))
        (AGMetadata.mk (some 4) false false none (some ProjectUserRoles.manager))).1 =
      Except.ok true :=
  c4_org_owner_bypasses_project_role_check _ ("org-1") ("proj-1") ("user-1")
    (some ("env-1")) none none false false none ProjectUserRoles.manager (some 4)
    orgNormal (ProjectDTO.mk ProjectType.normal) rfl rfl rfl rfl rfl rfl rfl rfl

/-- Claim C10: when the operation declares no project role and the
organization stage leaves no pending insufficient-role flag (for the
AuthorizationGuard: the caller role bit satisfies the declared access-role
mask; the V1 guard has no organization-role check at all), a caller with
zero project memberships is allowed by both pipelines once the
organization membership count is exactly 1 and the project entity
resolves — the empty project-membership result never blocks the decision. -/
theorem c10_no_project_role_zero_memberships_allowed
    (c : Collaborators) (os ps uid : String) (envId : Option String)
    (dsf : Option DeletedStatus) (lvl : Option FetchDeletedRecordsAccessLevel)
    (fdr gate : Bool) (opt : Option Bool)
    (mask : Option Nat) (om : OrganizationMemberDTO) (proj : ProjectDTO)
    (hos : v1IdCheckFails c (some os) = false)
    (hps1 : (ps != "") = true)
    (hps2 : c.uuidValidate ps = true)
    (hr : c.findAllOrganizationMembers
        (buildOrgMemberFilters os uid (resolveOrgDeletedStatus lvl fdr dsf)) =
      Except.ok (PaginatedData.mk [om] 1))
    (hgate : (om.organization.otype == OrganizationType.salesforceOnly && gate) = false)
    (hproj : c.findProjectById ps = Except.ok proj)
    (hpm : c.findAllProjectMembers (getProjectMemberFilters ps uid lvl fdr dsf) =
      Except.ok (PaginatedData.mk [] 0))
    (hmask : satisfiesAccessRole (authorizationUserRoleBit om.role) mask = true) :
    (v1CanActivate c (V1Request.mk (some os) (some ps) envId dsf uid)
        (V1Metadata.mk fdr lvl gate opt none)).1 = Except.ok true ∧
    (agCanActivate c (AGRequest.mk (some os) (some ps) dsf uid)
        (AGMetadata.mk mask fdr gate lvl none)).1 = Except.ok true := by
  have hps0 : (ps == "") = false := by simpa [bne] using hps1
  constructor
  · simp [v1CanActivate, v1CanActivateBody, v1ValidateOrganizationId,
      v1ValidateOrganizationIdCore, hos, gpure, gbind, gwrap, gdiscard,
      v1ProjectIdFormatCheck, hps0, hps1, hps2, jsTruthy,
      v1ValidateOrganizationMembers, v1ValidateOrganizationMembersCore,
      callFindAllOrganizationMembers, hr, hgate, v1ValidateProject,
      v1ValidateProjectCore, getProjectByIdG, hproj,
      callFindAllProjectMembers, hpm, gthrow, v1HandleErrorExc]
  · simp [agCanActivate, agCanActivateBody, jsToString,
      agValidateOrganizationMembers, callFindAllOrganizationMembers, hr, hgate,
      gbind, gwrap, gdiscard, gpure, gthrow, hmask, agValidateProject,
      agValidateProjectCore, getProjectByIdG, hproj, callFindAllProjectMembers,
      hpm, agValidateSalesforceType, agValidateSalesforceTypeCore,
      agProjectRoleBlock, agHandleErrorExc]

/-- Witness for c10_no_project_role_zero_memberships_allowed: an
organization Member with zero project memberships and no declared project
role is allowed by both guards. -/
theorem c10_no_project_role_zero_memberships_allowed_witness :
    (v1CanActivate
        (fixColl true (Except.ok (oneOrgMember OrganizationUserRoles.member))
          (Except.ok (PaginatedData.mk [] 0))
          (Except.ok (ProjectDTO.mk ProjectType.normal)) (Except.ok (some ("found"))))
        (V1Request.mk (some ("org-1")) (some ("proj-1")) (some ("env-1")) none
          ("user-1"))
        (V1Metadata.mk false none false none none)).1 = Except.ok true ∧
    (agCanActivate
        (fixColl true (Except.ok (oneOrgMember OrganizationUserRoles.member))
          (Except.ok (PaginatedData.mk [] 0))
          (Except.ok (ProjectDTO.mk ProjectType.normal)) (Except.ok (some ("found"))))
        (AGRequest.mk (some ("org-1")) (some ("proj-1")) none ("user-1"))
        (AGMetadata.mk (some 1) false false none none)).1 = Except.ok true :=
  c10_no_project_role_zero_memberships_allowed _ ("org-1") ("proj-1") ("user-1")
    (some ("env-1")) none none false false none (some 1)
    (OrganizationMemberDTO.mk OrganizationUserRoles.member orgNormal)
    (ProjectDTO.mk ProjectType.normal) rfl rfl rfl rfl rfl rfl rfl rfl
